import Mathlib

/-!
# Master server: registration handlers and server-list cache

A shallow embedding of `src/masterserver/udp.cpp` (the four UDP receive
handlers) and of the `MasterServer` class of `src/masterserver/masterserver.h`.

* Handlers are pure functions from the master server state and the received
  datagram to the new state and the list of externally visible effects
  (datagrams sent, calls into the SQL backend), in program order.
* Code that the handlers call but that lives outside the three source files
  (the packet readers, the tracked-query map of `UDPServer`, the constructors
  of the queried servers, `GetServerListPacket`) is modelled from the written
  specification; each such definition says so in its doc comment.
* Constants declared outside the three source files are fields of `Config`.
-/

namespace MasterServer

/-! ## Constants of `masterserver.h` -/

/-- Maximum age of the serverlist packet in frames. -/
def GAME_SERVER_LIST_AGE : Nat := 10

/-- How many frames it takes for a server to time out. -/
def SERVER_QUERY_TIMEOUT : Nat := 5

/-- How many times do we try to query. -/
def SERVER_QUERY_ATTEMPTS : Nat := 3

/-- Safe threshold for MTUs. -/
def SAFE_MTU : Nat := 1360

/-- Width of the C type `uint` used for frame numbers. -/
def UINT_MAX_PLUS_ONE : Nat := 2 ^ 32

/-- One octet of a datagram. -/
abbrev byte := Fin 256

/-- Constants used by the handlers whose declarations are not part of the
three source files: the size of the welcome buffer, the handshake literal and
the number of server list categories. -/
structure Config where
  NETWORK_NAME_LENGTH : Nat
  NETWORK_MASTER_SERVER_WELCOME_MESSAGE : List byte
  SLT_END : Nat

/-! ## Endpoints -/

/-- An endpoint: host and port, compared field by field. -/
structure NetworkAddress where
  host : Nat
  port : Nat
deriving DecidableEq, Repr

/-- The call `client_addr->SetPort(port)`. -/
def NetworkAddress.SetPort (a : NetworkAddress) (port : Nat) : NetworkAddress :=
  { a with port := port }

/-! ## Reading a received packet -/

/-- A received packet while it is being read: the payload that follows the
packet type, the read position, and the quit flag of the socket handler the
packet belongs to (the flag `HasClientQuit()` reports). -/
structure Packet where
  buffer : List byte
  pos : Nat
  has_quit : Bool
deriving DecidableEq, Repr

/-- A freshly received payload, handed to a handler: nothing read yet, the
client has not quit. -/
def Packet.received (payload : List byte) : Packet :=
  { buffer := payload, pos := 0, has_quit := false }

/-- Modelled from the spec: `Packet::Recv_uint8` is not among the source
files. Wire format of section 6 (`[uint8: version]`); a field that cannot be
fully read yields 0 and marks the client as quit, which is the condition the
handlers test with `HasClientQuit()`; once quit, nothing more is read. -/
def Recv_uint8 (p : Packet) : Nat × Packet :=
  if p.has_quit then (0, p)
  else if p.buffer.length < p.pos + 1 then (0, { p with has_quit := true })
  else ((p.buffer.getD p.pos 0).val, { p with pos := p.pos + 1 })

/-- Modelled from the spec: `Packet::Recv_uint16` is not among the source
files. Wire format of section 6 (`[uint16: listen_port]`), low octet first; a
field that cannot be fully read yields 0 and marks the client as quit. -/
def Recv_uint16 (p : Packet) : Nat × Packet :=
  if p.has_quit then (0, p)
  else if p.buffer.length < p.pos + 2 then (0, { p with has_quit := true })
  else ((p.buffer.getD p.pos 0).val + 256 * (p.buffer.getD (p.pos + 1) 0).val,
        { p with pos := p.pos + 2 })

/-- Modelled from the spec: `Packet::Recv_string` is not among the source
files. Wire format of section 6 (`[string: welcome]`): the octets up to the
terminating NUL, of which at most `size - 1` are stored in the buffer; the
read position moves past the terminator. -/
def Recv_string (size : Nat) (p : Packet) : List byte × Packet :=
  if p.has_quit then ([], p)
  else
    let s := (p.buffer.drop p.pos).takeWhile (fun b => b != 0)
    (s.take (size - 1), { p with pos := p.pos + s.length + 1 })

/-- The C library call `strncmp(a, b, n) == 0` on NUL-terminated strings:
the first `n` characters agree, the comparison stopping at a terminator. -/
def strncmp_eq (a b : List byte) (n : Nat) : Bool :=
  ((a.takeWhile (fun c => c != 0) ++ [0]).take n)
    == ((b.takeWhile (fun c => c != 0) ++ [0]).take n)

/-! ## Tracked queries -/

/-- A server whose liveness is being verified (`QueriedServer`). -/
structure QueriedServer where
  query_address : NetworkAddress
  frame : Nat
  attempts : Nat
deriving DecidableEq, Repr

/-- The master server's queried server (`MSQueriedServer`, masterserver.h
lines 31-55): a `QueriedServer` with a reply address and a session key. -/
structure MSQueriedServer extends QueriedServer where
  reply_address : NetworkAddress
  session_key : Nat
deriving DecidableEq, Repr

/-- Modelled from the spec: the constructor `QueriedServer(address, frame)`
is not among the source files. Section 3: `attempts` "starts at 1 on
creation", `frame` is the frame of the most recent probe attempt. -/
def QueriedServer.create (query_address : NetworkAddress) (frame : Nat) : QueriedServer :=
  { query_address := query_address, frame := frame, attempts := 1 }

/-- Modelled from the spec: the constructor declared at masterserver.h line 44,
`MSQueriedServer(query_address, reply_address, session_key, frame)`; its body
is not among the source files. It stores its arguments; `attempts` starts at 1
(section 3). -/
def MSQueriedServer.create (query_address reply_address : NetworkAddress)
    (session_key frame : Nat) : MSQueriedServer :=
  { toQueriedServer := QueriedServer.create query_address frame,
    reply_address := reply_address, session_key := session_key }

/-- The accessor `GetQueryAddress()`. -/
def QueriedServer.GetQueryAddress (qs : QueriedServer) : NetworkAddress := qs.query_address

/-- The accessor `GetReplyAddress()` (masterserver.h line 52). -/
def MSQueriedServer.GetReplyAddress (qs : MSQueriedServer) : NetworkAddress := qs.reply_address

/-- The accessor `GetSessionKey()` (masterserver.h line 54). -/
def MSQueriedServer.GetSessionKey (qs : MSQueriedServer) : Nat := qs.session_key

/-! ## Effects -/

/-- The two sockets of the master server. -/
inductive Socket where
  | master
  | query
deriving DecidableEq, Repr

/-- Datagrams the master server sends. -/
inductive OutPacket where
  | PACKET_UDP_MASTER_ACK_REGISTER
  | PACKET_UDP_CLIENT_FIND_SERVER
  | serverlist (cached : Option (List byte))
deriving DecidableEq, Repr

/-- What a handler does to the outside world. -/
inductive Effect where
  | SendPacket (socket : Socket) (packet : OutPacket) (recipient : NetworkAddress)
  | MakeServerOnline (qs : MSQueriedServer)
  | MakeServerOffline (qs : QueriedServer)
  | ListOnlineServers (type : Nat)
deriving DecidableEq, Repr

/-- True for a call of `MakeServerOnline`. -/
def Effect.isMakeServerOnline : Effect → Bool
  | .MakeServerOnline _ => true
  | _ => false

/-- True for a call of `MakeServerOffline`. -/
def Effect.isMakeServerOffline : Effect → Bool
  | .MakeServerOffline _ => true
  | _ => false

/-- True for a datagram sent. -/
def Effect.isSend : Effect → Bool
  | .SendPacket _ _ _ => true
  | _ => false

/-! ## The master server state -/

/-- The state of `MasterServer` (masterserver.h lines 60-112) with the part of
its base class `UDPServer` the handlers use: the tracked queries and the
frame counter. The three arrays of length `SLT_END` are indexed by category. -/
structure State where
  queried_servers : List MSQueriedServer
  frame : Nat
  update_serverlist_packet : Nat → Bool
  serverlist_packet : Nat → Option (List byte)
  next_serverlist_frame : Nat → Nat
  session_key : Nat

/-- The accessor `GetFrame()`. -/
def State.GetFrame (ms : State) : Nat := ms.frame

/-- Modelled from the spec: `UDPServer::GetQueriedServer` is not among the
source files. Section 4.3: the engine "owns the mapping from endpoint to
tracked query"; the lookup returns the tracked query of that endpoint, or
nothing (NULL). -/
def GetQueriedServer (ms : State) (client_addr : NetworkAddress) : Option MSQueriedServer :=
  ms.queried_servers.find? (fun q => q.query_address == client_addr)

/-- Modelled from the spec: `UDPServer::RemoveQueriedServer` is not among the
source files. Section 4.1: it "removes any tracked query" of the query endpoint
of `qs`; the removed query is returned to the caller, who deletes it. -/
def RemoveQueriedServer (ms : State) (qs : QueriedServer) : Option MSQueriedServer × State :=
  (GetQueriedServer ms qs.GetQueryAddress,
   { ms with queried_servers :=
       ms.queried_servers.filter (fun q => !(q.query_address == qs.GetQueryAddress)) })

/-- Modelled from the spec: `UDPServer::AddQueriedServer` is not among the
source files. Section 4.2: "a second REGISTER for the same endpoint while one
is Pending replaces it rather than stacking duplicates"; the replaced query is
returned to the caller, who deletes it. -/
def AddQueriedServer (ms : State) (qs : MSQueriedServer) : Option MSQueriedServer × State :=
  let r := RemoveQueriedServer ms qs.toQueriedServer
  (r.1, { r.2 with queried_servers := qs :: r.2.queried_servers })

/-- Modelled from the spec: `QueriedServer::SendFindGameServerPacket` is not
among the source files. Section 4.2: the probe is sent to the query endpoint of
the tracked query, through the socket it is given. -/
def SendFindGameServerPacket (qs : QueriedServer) (socket : Socket) : Effect :=
  Effect.SendPacket socket OutPacket.PACKET_UDP_CLIENT_FIND_SERVER qs.GetQueryAddress

/-- `MasterServer::ServerStateChange` (masterserver.h lines 86-91): the loop
`for (uint i = 0; i < SLT_END; i++) update_serverlist_packet[i] = true`. -/
def ServerStateChange (SLT_END : Nat) (ms : State) : State :=
  (List.range SLT_END).foldl
    (fun m i => { m with update_serverlist_packet := Function.update m.update_serverlist_packet i true })
    ms

/-- Modelled from the spec: `MasterServer::GetServerListPacket` is declared
at masterserver.h line 99, its body is not among the source files. Section
4.4: it "returns the cached packet if !dirty and current frame <
next_rebuild_frame; otherwise it queries the Persistent Store for the current
online set in that category, serializes a fresh packet bounded by a safe
maximum transmission size, stores it, clears dirty, and sets
next_rebuild_frame = current frame + GAME_SERVER_LIST_AGE". The serialized
online set of the store is the argument `online`; the frame is a C `uint`. -/
def GetServerListPacket (online : Nat → List byte) (ms : State) (type : Nat) :
    Option (List byte) × State × List Effect :=
  if !ms.update_serverlist_packet type && decide (ms.GetFrame < ms.next_serverlist_frame type) then
    (ms.serverlist_packet type, ms, [])
  else
    let fresh := (online type).take SAFE_MTU
    (some fresh,
     { ms with
        serverlist_packet := Function.update ms.serverlist_packet type (some fresh),
        update_serverlist_packet := Function.update ms.update_serverlist_packet type false,
        next_serverlist_frame :=
          Function.update ms.next_serverlist_frame type
            ((ms.GetFrame + GAME_SERVER_LIST_AGE) % UINT_MAX_PLUS_ONE) },
     [Effect.ListOnlineServers type])

/-! ## The handlers of `udp.cpp` -/

/-- The handler `Receive_SERVER_RESPONSE` of the query socket (udp.cpp lines 11-30). -/
def Receive_SERVER_RESPONSE (ms : State) (client_addr : NetworkAddress) : State × List Effect :=
  match GetQueriedServer ms client_addr with
  | none => (ms, [])
  | some qs =>
    let ack := Effect.SendPacket Socket.query OutPacket.PACKET_UDP_MASTER_ACK_REGISTER
                 qs.GetQueryAddress
    let online := Effect.MakeServerOnline qs
    ((RemoveQueriedServer ms qs.toQueriedServer).2, [ack, online])

/-- The handler `Receive_SERVER_REGISTER` of the master socket (udp.cpp lines
32-67). The call at line 54 passes the query endpoint and the frame only; the
reply address and session key the tracked query is built with are not
determined there and are arguments here. -/
def Receive_SERVER_REGISTER (cfg : Config) (ms : State) (payload : List byte)
    (client_addr reply_address : NetworkAddress) (session_key : Nat) : State × List Effect :=
  let p0 := Packet.received payload
  let (welcome_message, p1) := Recv_string cfg.NETWORK_NAME_LENGTH p0
  if !strncmp_eq welcome_message cfg.NETWORK_MASTER_SERVER_WELCOME_MESSAGE cfg.NETWORK_NAME_LENGTH then
    (ms, [])
  else
    let (master_server_version, p2) := Recv_uint8 p1
    if master_server_version != 1 then (ms, [])
    else
      let (port, p3) := Recv_uint16 p2
      let client_addr := client_addr.SetPort port
      let qs := MSQueriedServer.create client_addr reply_address session_key ms.GetFrame
      if p3.has_quit then (ms, [])
      else
        let probe := SendFindGameServerPacket qs.toQueriedServer Socket.query
        ((AddQueriedServer ms qs).2, [probe])

/-- The handler `Receive_SERVER_UNREGISTER` of the master socket (udp.cpp
lines 69-97). -/
def Receive_SERVER_UNREGISTER (ms : State) (payload : List byte)
    (client_addr : NetworkAddress) : State × List Effect :=
  let p0 := Packet.received payload
  let (master_server_version, p1) := Recv_uint8 p0
  if master_server_version != 1 then (ms, [])
  else
    let (port, p2) := Recv_uint16 p1
    let client_addr := client_addr.SetPort port
    let qs := QueriedServer.create client_addr ms.GetFrame
    if p2.has_quit then (ms, [])
    else
      ((RemoveQueriedServer ms qs).2, [Effect.MakeServerOffline qs])

/-- The handler `Receive_CLIENT_GET_LIST` of the master socket (udp.cpp lines
99-104). The category handed to `GetServerListPacket` is an argument. -/
def Receive_CLIENT_GET_LIST (online : Nat → List byte) (ms : State)
    (client_addr : NetworkAddress) (type : Nat) : State × List Effect :=
  let r := GetServerListPacket online ms type
  (r.2.1, r.2.2 ++ [Effect.SendPacket Socket.master (OutPacket.serverlist r.1) client_addr])

/-! ## Sequences of handled packets -/

/-- A datagram handed to one of the four handlers. -/
inductive UDPInput where
  | SERVER_REGISTER (payload : List byte) (client_addr reply_address : NetworkAddress)
      (session_key : Nat)
  | SERVER_UNREGISTER (payload : List byte) (client_addr : NetworkAddress)
  | CLIENT_GET_LIST (client_addr : NetworkAddress) (type : Nat)
  | SERVER_RESPONSE (client_addr : NetworkAddress)

/-- One handled packet: the value of the frame counter when it is handled, the
serialized online sets the store would return at that moment, and the
datagram. -/
structure Step where
  frame : Nat
  online : Nat → List byte
  input : UDPInput

/-- The state with the frame counter at `f`. -/
def State.atFrame (ms : State) (f : Nat) : State := { ms with frame := f }

/-- Dispatch of one handled packet to its handler. -/
def handle (cfg : Config) (ms : State) (st : Step) : State × List Effect :=
  match st.input with
  | .SERVER_REGISTER payload client_addr reply_address session_key =>
      Receive_SERVER_REGISTER cfg (ms.atFrame st.frame) payload client_addr reply_address session_key
  | .SERVER_UNREGISTER payload client_addr =>
      Receive_SERVER_UNREGISTER (ms.atFrame st.frame) payload client_addr
  | .CLIENT_GET_LIST client_addr type =>
      Receive_CLIENT_GET_LIST st.online (ms.atFrame st.frame) client_addr type
  | .SERVER_RESPONSE client_addr =>
      Receive_SERVER_RESPONSE (ms.atFrame st.frame) client_addr

/-- The state after a sequence of handled packets. -/
def run (cfg : Config) (ms : State) : List Step → State
  | [] => ms
  | st :: rest => run cfg (handle cfg ms st).1 rest

/-! ## Vocabulary of the properties -/

/-- The welcome string a REGISTER payload carries, as the handler reads it. -/
def registerWelcome (cfg : Config) (payload : List byte) : List byte :=
  (Recv_string cfg.NETWORK_NAME_LENGTH (Packet.received payload)).1

/-- The version byte a REGISTER payload carries, as the handler reads it. -/
def registerVersion (cfg : Config) (payload : List byte) : Nat :=
  (Recv_uint8 (Recv_string cfg.NETWORK_NAME_LENGTH (Packet.received payload)).2).1

/-- The listen port a REGISTER payload carries, as the handler reads it. -/
def registerPort (cfg : Config) (payload : List byte) : Nat :=
  (Recv_uint16 (Recv_uint8 (Recv_string cfg.NETWORK_NAME_LENGTH (Packet.received payload)).2).2).1

/-- The number of octets the welcome string occupies on the wire, terminator
included. -/
def welcomeWireLength (payload : List byte) : Nat :=
  (payload.takeWhile (fun b => b != 0)).length + 1

/-- A REGISTER payload is truncated when fewer than three octets (version byte
and listen port) follow the welcome string. -/
def RegisterTruncated (payload : List byte) : Prop :=
  payload.length < welcomeWireLength payload + 3

instance (payload : List byte) : Decidable (RegisterTruncated payload) := by
  unfold RegisterTruncated; infer_instance

/-- An accepted REGISTER: correct welcome string, version 1, complete payload. -/
def RegisterAccepted (cfg : Config) (payload : List byte) : Prop :=
  strncmp_eq (registerWelcome cfg payload) cfg.NETWORK_MASTER_SERVER_WELCOME_MESSAGE
      cfg.NETWORK_NAME_LENGTH = true
    ∧ registerVersion cfg payload = 1
    ∧ ¬ RegisterTruncated payload

instance (cfg : Config) (payload : List byte) : Decidable (RegisterAccepted cfg payload) := by
  unfold RegisterAccepted; infer_instance

/-- An UNREGISTER payload is truncated when it holds fewer than three octets
(version byte and listen port). -/
def UnregisterTruncated (payload : List byte) : Prop := payload.length < 3

instance (payload : List byte) : Decidable (UnregisterTruncated payload) := by
  unfold UnregisterTruncated; infer_instance

/-- The tracked query `qs` was created by an accepted REGISTER of `history`:
some packet of the sequence is a SERVER_REGISTER with the correct welcome
string, version 1 and a complete payload, and `qs` is the query its handler
builds for the endpoint made of the sender host and the listen port of the
payload, at the frame it was handled. -/
def CreatedBy (cfg : Config) (history : List Step) (qs : MSQueriedServer) : Prop :=
  ∃ (before after : List Step) (frame : Nat) (online : Nat → List byte) (payload : List byte)
    (client_addr reply_address : NetworkAddress) (session_key : Nat),
    history = before ++
        { frame := frame, online := online,
          input := UDPInput.SERVER_REGISTER payload client_addr reply_address session_key }
        :: after
      ∧ RegisterAccepted cfg payload
      ∧ qs = MSQueriedServer.create
          { host := client_addr.host, port := registerPort cfg payload }
          reply_address session_key frame

/-- No two tracked queries have the same query endpoint. -/
def NoDuplicateEndpoints (l : List MSQueriedServer) : Prop :=
  (l.map (fun q => q.query_address)).Nodup

instance (l : List MSQueriedServer) : Decidable (NoDuplicateEndpoints l) := by
  unfold NoDuplicateEndpoints; infer_instance

/-! ## Concrete data used to exercise the statements -/

/-- The handshake literal "OpenTTDRegister" in a buffer of 80 characters, two
server list categories. -/
def exampleConfig : Config :=
  { NETWORK_NAME_LENGTH := 80,
    NETWORK_MASTER_SERVER_WELCOME_MESSAGE :=
      [79, 112, 101, 110, 84, 84, 68, 82, 101, 103, 105, 115, 116, 101, 114],
    SLT_END := 2 }

/-- A master server that tracks nothing, at frame `f`, with every cached list
clean, absent and due at frame 0. -/
def exampleIdle (f : Nat) : State :=
  { queried_servers := [], frame := f,
    update_serverlist_packet := fun _ => false,
    serverlist_packet := fun _ => none,
    next_serverlist_frame := fun _ => 0,
    session_key := 0 }

/-- A complete REGISTER payload: the handshake literal, version 1, listen port
3979 (0x0F8B, low octet first). -/
def exampleRegisterPayload : List byte :=
  [79, 112, 101, 110, 84, 84, 68, 82, 101, 103, 105, 115, 116, 101, 114, 0, 1, 139, 15]

/-- The endpoint a registrant sends its REGISTER from. -/
def exampleRegistrant : NetworkAddress := { host := 7, port := 50000 }

/-- The endpoint the registrant asks to be probed at. -/
def exampleServer : NetworkAddress := { host := 7, port := 3979 }

/-- The store contents used to exercise the list cache: one octet per category. -/
def exampleOnline : Nat → List byte := fun _ => [42]

/-- The state after the list of category 0 has been built at frame 0. -/
def exampleBuilt : State := (GetServerListPacket exampleOnline (exampleIdle 0) 0).2.1

/-- The sequence made of the registration of the example, handled at frame 4. -/
def exampleHistory : List Step :=
  [{ frame := 4, online := exampleOnline,
     input := UDPInput.SERVER_REGISTER exampleRegisterPayload exampleRegistrant
       exampleRegistrant 99 }]

/-- The state after the registrant's REGISTER has been handled at frame 4. -/
def examplePending : State :=
  (Receive_SERVER_REGISTER exampleConfig (exampleIdle 4) exampleRegisterPayload
    exampleRegistrant exampleRegistrant 99).1

end MasterServer

namespace MasterServer

/-! ## Reading lemmas -/

theorem Recv_string_received (size : Nat) (payload : List byte) :
    Recv_string size (Packet.received payload)
      = ((payload.takeWhile (fun b => b != 0)).take (size - 1),
         { buffer := payload, pos := welcomeWireLength payload, has_quit := false }) := by
  simp [Recv_string, Packet.received, welcomeWireLength]

theorem Recv_uint8_quit (p : Packet) (h : p.buffer.length < p.pos + 1) :
    (Recv_uint8 p).1 = 0 := by
  unfold Recv_uint8
  by_cases hq : p.has_quit = true
  · rw [if_pos hq]
  · rw [if_neg hq, if_pos h]

theorem Recv_uint8_has_quit (p : Packet) (h : p.buffer.length < p.pos + 1) :
    (Recv_uint8 p).2.has_quit = true := by
  unfold Recv_uint8
  by_cases hq : p.has_quit = true
  · rw [if_pos hq]; exact hq
  · rw [if_neg hq, if_pos h]

theorem Recv_uint8_ok (p : Packet) (hq : p.has_quit = false) (h : p.pos + 1 ≤ p.buffer.length) :
    Recv_uint8 p = ((p.buffer.getD p.pos 0).val, { p with pos := p.pos + 1 }) := by
  unfold Recv_uint8
  rw [if_neg (by simp [hq]), if_neg (by omega)]

theorem Recv_uint16_has_quit (p : Packet) (h : p.has_quit = true ∨ p.buffer.length < p.pos + 2) :
    (Recv_uint16 p).2.has_quit = true := by
  unfold Recv_uint16
  by_cases hq : p.has_quit = true
  · rw [if_pos hq]; exact hq
  · rw [if_neg hq]
    rcases h with h | h
    · exact absurd h hq
    · rw [if_pos h]

theorem Recv_uint16_ok (p : Packet) (hq : p.has_quit = false) (h : p.pos + 2 ≤ p.buffer.length) :
    Recv_uint16 p = ((p.buffer.getD p.pos 0).val + 256 * (p.buffer.getD (p.pos + 1) 0).val,
                     { p with pos := p.pos + 2 }) := by
  unfold Recv_uint16
  rw [if_neg (by simp [hq]), if_neg (by omega)]

/-- Reading a version byte and a port from a packet with fewer than three
octets left always ends with the quit flag set, or with version 0. -/
theorem Recv_version_port_truncated (p : Packet) (h : p.buffer.length < p.pos + 3) :
    (Recv_uint8 p).1 ≠ 1 ∨ (Recv_uint16 (Recv_uint8 p).2).2.has_quit = true := by
  by_cases hq : p.has_quit = true
  · right
    apply Recv_uint16_has_quit
    left
    unfold Recv_uint8
    rw [if_pos hq]; exact hq
  · by_cases h1 : p.buffer.length < p.pos + 1
    · left
      rw [Recv_uint8_quit p h1]; decide
    · right
      apply Recv_uint16_has_quit
      right
      rw [Recv_uint8_ok p (by simpa using hq) (by omega)]
      simp only []
      omega

/-- Reading a version byte and a port from a fresh packet with at least three
octets left succeeds. -/
theorem Recv_version_port_complete (p : Packet) (hq : p.has_quit = false)
    (h : p.pos + 3 ≤ p.buffer.length) :
    (Recv_uint16 (Recv_uint8 p).2).2.has_quit = false := by
  rw [Recv_uint8_ok p hq (by omega)]
  show (Recv_uint16 { p with pos := p.pos + 1 }).2.has_quit = false
  rw [Recv_uint16_ok { p with pos := p.pos + 1 } hq (by simp only []; omega)]
  exact hq

/-- On the wire, a REGISTER made of a NUL-free welcome string that fits the
buffer, a terminator, the version byte 1 and two port octets is accepted when
the string is the handshake literal, and its listen port is the one encoded
low octet first. -/
theorem RegisterAccepted_wire (cfg : Config) (lo hi : byte) (rest : List byte)
    (hnul : ∀ b ∈ cfg.NETWORK_MASTER_SERVER_WELCOME_MESSAGE, b ≠ 0)
    (hlen : cfg.NETWORK_MASTER_SERVER_WELCOME_MESSAGE.length < cfg.NETWORK_NAME_LENGTH) :
    RegisterAccepted cfg (cfg.NETWORK_MASTER_SERVER_WELCOME_MESSAGE ++ 0 :: 1 :: lo :: hi :: rest)
      ∧ registerPort cfg (cfg.NETWORK_MASTER_SERVER_WELCOME_MESSAGE ++ 0 :: 1 :: lo :: hi :: rest)
          = lo.val + 256 * hi.val := by
  generalize hW : cfg.NETWORK_MASTER_SERVER_WELCOME_MESSAGE = W at hnul hlen ⊢
  have htw : (W ++ 0 :: 1 :: lo :: hi :: rest).takeWhile (fun b => b != 0) = W := by
    rw [List.takeWhile_append_of_pos (by simpa using hnul)]
    simp
  have hwl : welcomeWireLength (W ++ 0 :: 1 :: lo :: hi :: rest) = W.length + 1 := by
    simp [welcomeWireLength, htw]
  have hg1 : (W ++ 0 :: 1 :: lo :: hi :: rest).getD (W.length + 1) 0 = 1 := by
    rw [List.getD_append_right _ _ _ _ (by omega)]
    simp
  have hg2 : (W ++ 0 :: 1 :: lo :: hi :: rest).getD (W.length + 1 + 1) 0 = lo := by
    rw [List.getD_append_right _ _ _ _ (by omega)]
    have : W.length + 1 + 1 - W.length = 2 := by omega
    rw [this]
    rfl
  have hg3 : (W ++ 0 :: 1 :: lo :: hi :: rest).getD (W.length + 1 + 1 + 1) 0 = hi := by
    rw [List.getD_append_right _ _ _ _ (by omega)]
    have : W.length + 1 + 1 + 1 - W.length = 3 := by omega
    rw [this]
    rfl
  have hl : (W ++ 0 :: 1 :: lo :: hi :: rest).length = W.length + 4 + rest.length := by
    simp; omega
  have h8 := Recv_uint8_ok
    { buffer := W ++ 0 :: 1 :: lo :: hi :: rest, pos := W.length + 1, has_quit := false } rfl
    (by simp only [hl]; omega)
  have h16 := Recv_uint16_ok
    { buffer := W ++ 0 :: 1 :: lo :: hi :: rest, pos := W.length + 1 + 1, has_quit := false } rfl
    (by simp only [hl]; omega)
  refine ⟨⟨?_, ?_, ?_⟩, ?_⟩
  · simp only [registerWelcome, Recv_string_received, htw, hW]
    rw [List.take_of_length_le (by omega)]
    simp [strncmp_eq]
  · simp only [registerVersion, Recv_string_received, hwl, h8, hg1]
    rfl
  · simp only [RegisterTruncated, hwl, hl]
    omega
  · simp only [registerPort, Recv_string_received, hwl, h8, h16, hg2, hg3]

/-! ## The handlers, case by case -/

theorem Receive_SERVER_REGISTER_rejected (cfg : Config) (ms : State) (payload : List byte)
    (client_addr reply_address : NetworkAddress) (session_key : Nat)
    (h : ¬ RegisterAccepted cfg payload) :
    Receive_SERVER_REGISTER cfg ms payload client_addr reply_address session_key = (ms, []) := by
  unfold Receive_SERVER_REGISTER
  simp only [Recv_string_received]
  by_cases hw : strncmp_eq ((payload.takeWhile (fun b => b != 0)).take (cfg.NETWORK_NAME_LENGTH - 1))
      cfg.NETWORK_MASTER_SERVER_WELCOME_MESSAGE cfg.NETWORK_NAME_LENGTH = true
  · simp only [hw, Bool.not_true, Bool.false_eq_true, if_false]
    by_cases hv : (Recv_uint8 { buffer := payload, pos := welcomeWireLength payload, has_quit := false }).1 = 1
    · simp only [hv, bne_self_eq_false, Bool.false_eq_true, if_false]
      have ht : RegisterTruncated payload := by
        by_contra ht
        apply h
        refine ⟨?_, ?_, ht⟩
        · simpa [registerWelcome, Recv_string_received] using hw
        · simpa [registerVersion, Recv_string_received] using hv
      have := Recv_version_port_truncated
        { buffer := payload, pos := welcomeWireLength payload, has_quit := false } ht
      rcases this with h1 | h2
      · exact absurd hv h1
      · rw [if_pos h2]
    · have : ((Recv_uint8 { buffer := payload, pos := welcomeWireLength payload, has_quit := false }).1 != 1) = true := by
        simpa using hv
      rw [if_pos this]
  · simp only [hw, Bool.not_false, if_true]

theorem Receive_SERVER_REGISTER_accepted (cfg : Config) (ms : State) (payload : List byte)
    (client_addr reply_address : NetworkAddress) (session_key : Nat)
    (h : RegisterAccepted cfg payload) :
    Receive_SERVER_REGISTER cfg ms payload client_addr reply_address session_key
      = ((AddQueriedServer ms
            (MSQueriedServer.create (client_addr.SetPort (registerPort cfg payload))
              reply_address session_key ms.frame)).2,
         [Effect.SendPacket Socket.query OutPacket.PACKET_UDP_CLIENT_FIND_SERVER
            (client_addr.SetPort (registerPort cfg payload))]) := by
  obtain ⟨hw, hv, ht⟩ := h
  simp only [registerWelcome, registerVersion, Recv_string_received] at hw hv
  have hc := Recv_version_port_complete
    { buffer := payload, pos := welcomeWireLength payload, has_quit := false } rfl
    (by simp only [RegisterTruncated] at ht; simp only []; omega)
  unfold Receive_SERVER_REGISTER
  simp only [Recv_string_received, hw, hv, hc, registerPort]
  rfl

theorem Receive_SERVER_UNREGISTER_truncated (ms : State) (payload : List byte)
    (client_addr : NetworkAddress) (h : UnregisterTruncated payload) :
    Receive_SERVER_UNREGISTER ms payload client_addr = (ms, []) := by
  unfold Receive_SERVER_UNREGISTER
  simp only []
  by_cases hv : (Recv_uint8 (Packet.received payload)).1 = 1
  · simp only [hv, bne_self_eq_false, Bool.false_eq_true, if_false]
    have := Recv_version_port_truncated (Packet.received payload)
      (by simp only [UnregisterTruncated] at h; simp only [Packet.received]; omega)
    rcases this with h1 | h2
    · exact absurd hv h1
    · rw [if_pos h2]
  · have : ((Recv_uint8 (Packet.received payload)).1 != 1) = true := by simpa using hv
    rw [if_pos this]

theorem Receive_SERVER_UNREGISTER_version (ms : State) (v : byte) (rest : List byte)
    (client_addr : NetworkAddress) (h : v ≠ 1) :
    Receive_SERVER_UNREGISTER ms (v :: rest) client_addr = (ms, []) := by
  have hv : v.val ≠ 1 := fun hc => h (Fin.ext hc)
  simp [Receive_SERVER_UNREGISTER, Recv_uint8, Packet.received, hv]

theorem Receive_SERVER_UNREGISTER_wellformed (ms : State) (lo hi : byte) (rest : List byte)
    (client_addr : NetworkAddress) :
    Receive_SERVER_UNREGISTER ms (1 :: lo :: hi :: rest) client_addr
      = ((RemoveQueriedServer ms
            (QueriedServer.create { host := client_addr.host, port := lo.val + 256 * hi.val }
              ms.frame)).2,
         [Effect.MakeServerOffline
            (QueriedServer.create { host := client_addr.host, port := lo.val + 256 * hi.val }
              ms.frame)]) := by
  have hlen : ¬ (rest.length + 1 + 1 + 1 < 3) := by omega
  simp [Receive_SERVER_UNREGISTER, Recv_uint8, Recv_uint16, Packet.received,
    NetworkAddress.SetPort, State.GetFrame, hlen]

theorem GetQueriedServer_address (ms : State) (client_addr : NetworkAddress)
    (qs : MSQueriedServer) (h : GetQueriedServer ms client_addr = some qs) :
    qs.query_address = client_addr ∧ qs ∈ ms.queried_servers := by
  unfold GetQueriedServer at h
  refine ⟨?_, List.mem_of_find?_eq_some h⟩
  have := List.find?_some h
  simpa using this

theorem Receive_SERVER_RESPONSE_matched (ms : State) (client_addr : NetworkAddress)
    (qs : MSQueriedServer) (h : GetQueriedServer ms client_addr = some qs) :
    Receive_SERVER_RESPONSE ms client_addr
      = ({ ms with queried_servers :=
             ms.queried_servers.filter (fun q => !(q.query_address == client_addr)) },
         [Effect.SendPacket Socket.query OutPacket.PACKET_UDP_MASTER_ACK_REGISTER qs.query_address,
          Effect.MakeServerOnline qs]) := by
  have ha := (GetQueriedServer_address ms client_addr qs h).1
  unfold Receive_SERVER_RESPONSE
  rw [h]
  simp only [RemoveQueriedServer, QueriedServer.GetQueryAddress, ha]

theorem Receive_SERVER_RESPONSE_unmatched (ms : State) (client_addr : NetworkAddress)
    (h : GetQueriedServer ms client_addr = none) :
    Receive_SERVER_RESPONSE ms client_addr = (ms, []) := by
  unfold Receive_SERVER_RESPONSE
  rw [h]

/-- With distinct query endpoints, dropping the queries of an endpoint drops
exactly the one query found for it. -/
theorem filter_endpoint_eq_erase (l : List MSQueriedServer) (a : NetworkAddress)
    (qs : MSQueriedServer) (hnd : NoDuplicateEndpoints l)
    (hf : l.find? (fun q => q.query_address == a) = some qs) :
    l.filter (fun q => !(q.query_address == a)) = l.erase qs := by
  induction l with
  | nil => simp at hf
  | cons x xs ih =>
    unfold NoDuplicateEndpoints at hnd
    rw [List.map_cons, List.nodup_cons] at hnd
    by_cases hx : x.query_address = a
    · have hq : qs = x := by
        simpa [List.find?_cons, hx] using hf.symm
      subst hq
      have hrest : xs.filter (fun q => !(q.query_address == a)) = xs := by
        rw [List.filter_eq_self]
        intro q hqmem
        have : q.query_address ≠ a := by
          intro hc
          apply hnd.1
          rw [hx, ← hc]
          exact List.mem_map_of_mem _ hqmem
        simpa using this
      simp [List.filter_cons, hx, hrest]
    · have hf2 : xs.find? (fun q => q.query_address == a) = some qs := by
        simpa [List.find?_cons, hx] using hf
      have hqa : qs.query_address = a := by
        have := List.find?_some hf2
        simpa using this
      have hne : x ≠ qs := by
        intro hc
        apply hx
        rw [hc]; exact hqa
      have hb : (!(x.query_address == a)) = true := by simpa using hx
      rw [List.filter_cons, if_pos hb, ih hnd.2 hf2, List.erase_cons_tail]
      simpa using hne

/-! ## Claims about single handlers -/

/-- C2: for every SERVER_RESPONSE whose sender endpoint has a tracked query
`qs`, the handler sends exactly one MASTER_ACK_REGISTER, addressed to the query
endpoint of `qs`, calls `MakeServerOnline` exactly once, with `qs`, does
nothing else, and leaves the tracked queries equal to the previous ones with
`qs` removed, the other tracked queries staying as they were. -/
theorem C2_matching_response_confirms (ms : State) (client_addr : NetworkAddress)
    (qs : MSQueriedServer) (hnd : NoDuplicateEndpoints ms.queried_servers)
    (h : GetQueriedServer ms client_addr = some qs) :
    (Receive_SERVER_RESPONSE ms client_addr).2
        = [Effect.SendPacket Socket.query OutPacket.PACKET_UDP_MASTER_ACK_REGISTER
             qs.query_address,
           Effect.MakeServerOnline qs]
      ∧ ((Receive_SERVER_RESPONSE ms client_addr).2.filter Effect.isMakeServerOnline).length = 1
      ∧ ((Receive_SERVER_RESPONSE ms client_addr).2.filter Effect.isSend).length = 1
      ∧ qs ∈ ms.queried_servers
      ∧ (Receive_SERVER_RESPONSE ms client_addr).1.queried_servers = ms.queried_servers.erase qs
      ∧ (∀ q, q ∈ (Receive_SERVER_RESPONSE ms client_addr).1.queried_servers
            ↔ q ∈ ms.queried_servers ∧ q ≠ qs) := by
  have hm := Receive_SERVER_RESPONSE_matched ms client_addr qs h
  have hmem := (GetQueriedServer_address ms client_addr qs h).2
  have her := filter_endpoint_eq_erase ms.queried_servers client_addr qs hnd h
  have hnodup : ms.queried_servers.Nodup := List.Nodup.of_map _ hnd
  rw [hm]
  refine ⟨rfl, rfl, rfl, hmem, her, ?_⟩
  intro q
  simp only [her]
  rw [List.Nodup.mem_erase_iff hnodup]
  exact ⟨fun hq => ⟨hq.2, hq.1⟩, fun hq => ⟨hq.2, hq.1⟩⟩

/-- Witness of C2 on the state that tracks the registrant of the example. -/
theorem C2_matching_response_confirms_witness :
    (Receive_SERVER_RESPONSE examplePending exampleServer).2
        = [Effect.SendPacket Socket.query OutPacket.PACKET_UDP_MASTER_ACK_REGISTER exampleServer,
           Effect.MakeServerOnline (MSQueriedServer.create exampleServer exampleRegistrant 99 4)]
      ∧ (Receive_SERVER_RESPONSE examplePending exampleServer).1.queried_servers = [] := by
  have h := C2_matching_response_confirms examplePending exampleServer
    (MSQueriedServer.create exampleServer exampleRegistrant 99 4) (by decide) (by decide)
  exact ⟨h.1, by rw [h.2.2.2.2.1]; decide⟩

/-- C3, as the code has it: for every SERVER_RESPONSE whose sender endpoint has
a tracked query, the only datagram sent is a MASTER_ACK_REGISTER to the
`query_address` of that tracked query; it reaches the stored `reply_address`
exactly when the two addresses are equal. -/
theorem C3_ack_sent_to_query_address (ms : State) (client_addr : NetworkAddress)
    (qs : MSQueriedServer) (h : GetQueriedServer ms client_addr = some qs) :
    (Receive_SERVER_RESPONSE ms client_addr).2.filter Effect.isSend
        = [Effect.SendPacket Socket.query OutPacket.PACKET_UDP_MASTER_ACK_REGISTER
             qs.GetQueryAddress]
      ∧ (∀ socket : Socket,
          Effect.SendPacket socket OutPacket.PACKET_UDP_MASTER_ACK_REGISTER qs.GetReplyAddress
              ∈ (Receive_SERVER_RESPONSE ms client_addr).2
            ↔ socket = Socket.query ∧ qs.reply_address = qs.query_address) := by
  rw [Receive_SERVER_RESPONSE_matched ms client_addr qs h]
  refine ⟨rfl, ?_⟩
  intro socket
  simp [MSQueriedServer.GetReplyAddress]

/-- Witness of C3 (amended) on the state that tracks the registrant of the
example. -/
theorem C3_ack_sent_to_query_address_witness :
    (Receive_SERVER_RESPONSE examplePending exampleServer).2.filter Effect.isSend
      = [Effect.SendPacket Socket.query OutPacket.PACKET_UDP_MASTER_ACK_REGISTER exampleServer] :=
  (C3_ack_sent_to_query_address examplePending exampleServer
    (MSQueriedServer.create exampleServer exampleRegistrant 99 4) (by decide)).1

/-- C3 as stated fails: the tracked query of the example has reply address
7:50000 and query address 7:3979; the matching SERVER_RESPONSE is acknowledged
to 7:3979 and nothing is sent to the reply address. -/
theorem C3_counterexample_ack_not_to_reply_address :
    GetQueriedServer examplePending exampleServer
        = some (MSQueriedServer.create exampleServer exampleRegistrant 99 4)
      ∧ (MSQueriedServer.create exampleServer exampleRegistrant 99 4).GetReplyAddress
          = exampleRegistrant
      ∧ exampleRegistrant ≠ exampleServer
      ∧ (Receive_SERVER_RESPONSE examplePending exampleServer).2.filter Effect.isSend
          = [Effect.SendPacket Socket.query OutPacket.PACKET_UDP_MASTER_ACK_REGISTER exampleServer]
      ∧ Effect.SendPacket Socket.query OutPacket.PACKET_UDP_MASTER_ACK_REGISTER exampleRegistrant
          ∉ (Receive_SERVER_RESPONSE examplePending exampleServer).2
      ∧ Effect.SendPacket Socket.master OutPacket.PACKET_UDP_MASTER_ACK_REGISTER exampleRegistrant
          ∉ (Receive_SERVER_RESPONSE examplePending exampleServer).2 := by
  decide

/-- C4: a SERVER_REGISTER whose welcome string differs from the handshake
literal, or whose version byte is not 1, leaves the whole state (tracked
queries, list cache) as it was and has no effect: no packet is sent and the
store is not called. -/
theorem C4_malformed_register_ignored (cfg : Config) (ms : State) (payload : List byte)
    (client_addr reply_address : NetworkAddress) (session_key : Nat)
    (h : strncmp_eq (registerWelcome cfg payload) cfg.NETWORK_MASTER_SERVER_WELCOME_MESSAGE
            cfg.NETWORK_NAME_LENGTH = false
          ∨ registerVersion cfg payload ≠ 1) :
    (Receive_SERVER_REGISTER cfg ms payload client_addr reply_address session_key).1 = ms
      ∧ (Receive_SERVER_REGISTER cfg ms payload client_addr reply_address session_key).2 = [] := by
  have hr : ¬ RegisterAccepted cfg payload := by
    rintro ⟨hw, hv, _⟩
    rcases h with h | h
    · rw [hw] at h; exact Bool.noConfusion h
    · exact h hv
  rw [Receive_SERVER_REGISTER_rejected cfg ms payload client_addr reply_address session_key hr]
  exact ⟨rfl, rfl⟩

/-- Witness of C4: the welcome string "Hi" followed by version 1 and a port. -/
theorem C4_malformed_register_ignored_witness :
    (Receive_SERVER_REGISTER exampleConfig examplePending [72, 105, 0, 1, 139, 15]
        exampleRegistrant exampleRegistrant 5).1 = examplePending
      ∧ (Receive_SERVER_REGISTER exampleConfig examplePending [72, 105, 0, 1, 139, 15]
        exampleRegistrant exampleRegistrant 5).2 = [] :=
  C4_malformed_register_ignored exampleConfig examplePending [72, 105, 0, 1, 139, 15]
    exampleRegistrant exampleRegistrant 5 (Or.inl (by decide))

/-- C5: a SERVER_RESPONSE whose sender endpoint has no tracked query leaves
the whole state as it was and has no effect: the store is not called and no
packet is sent. -/
theorem C5_unmatched_response_dropped (ms : State) (client_addr : NetworkAddress)
    (h : ∀ q ∈ ms.queried_servers, q.query_address ≠ client_addr) :
    (Receive_SERVER_RESPONSE ms client_addr).1 = ms
      ∧ (Receive_SERVER_RESPONSE ms client_addr).2 = [] := by
  have hn : GetQueriedServer ms client_addr = none := by
    unfold GetQueriedServer
    rw [List.find?_eq_none]
    intro q hq
    simpa using h q hq
  rw [Receive_SERVER_RESPONSE_unmatched ms client_addr hn]
  exact ⟨rfl, rfl⟩

/-- Witness of C5: a response from the registrant's source endpoint, which is
not the endpoint being probed. -/
theorem C5_unmatched_response_dropped_witness :
    (Receive_SERVER_RESPONSE examplePending exampleRegistrant).1 = examplePending
      ∧ (Receive_SERVER_RESPONSE examplePending exampleRegistrant).2 = [] :=
  C5_unmatched_response_dropped examplePending exampleRegistrant (by decide)

/-- The effects of the REGISTER handler are at most one probe. -/
theorem Receive_SERVER_REGISTER_effects (cfg : Config) (ms : State) (payload : List byte)
    (client_addr reply_address : NetworkAddress) (session_key : Nat) (e : Effect)
    (he : e ∈ (Receive_SERVER_REGISTER cfg ms payload client_addr reply_address session_key).2) :
    e = Effect.SendPacket Socket.query OutPacket.PACKET_UDP_CLIENT_FIND_SERVER
          (client_addr.SetPort (registerPort cfg payload)) := by
  by_cases h : RegisterAccepted cfg payload
  · rw [Receive_SERVER_REGISTER_accepted cfg ms payload client_addr reply_address session_key h] at he
    simpa using he
  · rw [Receive_SERVER_REGISTER_rejected cfg ms payload client_addr reply_address session_key h] at he
    simp at he

/-- The effects of the RESPONSE handler are at most an acknowledgment and a
`MakeServerOnline` call. -/
theorem Receive_SERVER_RESPONSE_effects (ms : State) (client_addr : NetworkAddress) (e : Effect)
    (he : e ∈ (Receive_SERVER_RESPONSE ms client_addr).2) :
    ∃ qs, GetQueriedServer ms client_addr = some qs
      ∧ (e = Effect.SendPacket Socket.query OutPacket.PACKET_UDP_MASTER_ACK_REGISTER qs.query_address
          ∨ e = Effect.MakeServerOnline qs) := by
  cases hg : GetQueriedServer ms client_addr with
  | none =>
    rw [Receive_SERVER_RESPONSE_unmatched ms client_addr hg] at he
    simp at he
  | some qs =>
    rw [Receive_SERVER_RESPONSE_matched ms client_addr qs hg] at he
    exact ⟨qs, rfl, by simpa using he⟩

/-- The effects of the GET_LIST handler are at most a store read and the list
packet sent. -/
theorem Receive_CLIENT_GET_LIST_effects (online : Nat → List byte) (ms : State)
    (client_addr : NetworkAddress) (type : Nat) (e : Effect)
    (he : e ∈ (Receive_CLIENT_GET_LIST online ms client_addr type).2) :
    e = Effect.ListOnlineServers type
      ∨ ∃ pkt, e = Effect.SendPacket Socket.master (OutPacket.serverlist pkt) client_addr := by
  unfold Receive_CLIENT_GET_LIST GetServerListPacket at he
  split at he
  · right
    exact ⟨_, by simpa using he⟩
  · simp only [List.mem_append, List.mem_singleton] at he
    rcases he with he | he
    · exact Or.inl he
    · exact Or.inr ⟨_, he⟩

/-- C6: a SERVER_UNREGISTER that carries version byte 1 and a listen port
calls `MakeServerOffline` exactly once, for the endpoint made of the sender
host and the listen port of the payload, and does nothing else; afterwards no
tracked query of that endpoint remains and the tracked queries of other
endpoints are kept. With a version byte other than 1 nothing is called. The
REGISTER, SERVER_RESPONSE and CLIENT_GET_LIST handlers never call
`MakeServerOffline`. -/
theorem C6_offline_once_per_unregister :
    (∀ (ms : State) (lo hi : byte) (rest : List byte) (client_addr : NetworkAddress),
        (Receive_SERVER_UNREGISTER ms (1 :: lo :: hi :: rest) client_addr).2
            = [Effect.MakeServerOffline
                (QueriedServer.create
                  { host := client_addr.host, port := lo.val + 256 * hi.val } ms.frame)]
          ∧ (∀ q ∈ (Receive_SERVER_UNREGISTER ms (1 :: lo :: hi :: rest) client_addr).1.queried_servers,
              q.query_address ≠ { host := client_addr.host, port := lo.val + 256 * hi.val })
          ∧ (∀ q ∈ ms.queried_servers,
              q.query_address ≠ { host := client_addr.host, port := lo.val + 256 * hi.val } →
              q ∈ (Receive_SERVER_UNREGISTER ms (1 :: lo :: hi :: rest) client_addr).1.queried_servers))
      ∧ (∀ (ms : State) (v : byte) (rest : List byte) (client_addr : NetworkAddress),
          v ≠ 1 → (Receive_SERVER_UNREGISTER ms (v :: rest) client_addr).2 = [])
      ∧ (∀ (cfg : Config) (ms : State) (payload : List byte)
          (client_addr reply_address : NetworkAddress) (session_key : Nat) (e : Effect),
          e ∈ (Receive_SERVER_REGISTER cfg ms payload client_addr reply_address session_key).2 →
            e.isMakeServerOffline = false)
      ∧ (∀ (ms : State) (client_addr : NetworkAddress) (e : Effect),
          e ∈ (Receive_SERVER_RESPONSE ms client_addr).2 → e.isMakeServerOffline = false)
      ∧ (∀ (online : Nat → List byte) (ms : State) (client_addr : NetworkAddress) (type : Nat)
          (e : Effect),
          e ∈ (Receive_CLIENT_GET_LIST online ms client_addr type).2 →
            e.isMakeServerOffline = false) := by
  refine ⟨?_, ?_, ?_, ?_, ?_⟩
  · intro ms lo hi rest client_addr
    rw [Receive_SERVER_UNREGISTER_wellformed]
    refine ⟨rfl, ?_, ?_⟩
    · intro q hq
      simp only [RemoveQueriedServer, QueriedServer.GetQueryAddress, QueriedServer.create,
        List.mem_filter] at hq
      simpa using hq.2
    · intro q hq hne
      simp only [RemoveQueriedServer, QueriedServer.GetQueryAddress, QueriedServer.create,
        List.mem_filter]
      exact ⟨hq, by simpa using hne⟩
  · intro ms v rest client_addr hv
    rw [Receive_SERVER_UNREGISTER_version ms v rest client_addr hv]
  · intro cfg ms payload client_addr reply_address session_key e he
    rw [Receive_SERVER_REGISTER_effects cfg ms payload client_addr reply_address session_key e he]
    rfl
  · intro ms client_addr e he
    obtain ⟨qs, _, h | h⟩ := Receive_SERVER_RESPONSE_effects ms client_addr e he <;> rw [h] <;> rfl
  · intro online ms client_addr type e he
    rcases Receive_CLIENT_GET_LIST_effects online ms client_addr type e he with h | ⟨pkt, h⟩ <;>
      rw [h] <;> rfl

/-- Witness of C6: an UNREGISTER with version byte 2 calls nothing; one with
version byte 1 for the probed endpoint of the example goes offline once and
leaves nothing tracked. -/
theorem C6_offline_once_per_unregister_witness :
    (Receive_SERVER_UNREGISTER examplePending [2, 139, 15] exampleRegistrant).2 = []
      ∧ (Receive_SERVER_UNREGISTER examplePending [1, 139, 15] exampleRegistrant).2
          = [Effect.MakeServerOffline (QueriedServer.create exampleServer 4)] :=
  ⟨C6_offline_once_per_unregister.2.1 examplePending 2 [139, 15] exampleRegistrant (by decide),
   (C6_offline_once_per_unregister.1 examplePending 139 15 [] exampleRegistrant).1⟩

/-- C10: a SERVER_REGISTER in which fewer than three octets follow the welcome
string, or a SERVER_UNREGISTER of fewer than three octets (the version byte or
the listen port cannot be fully read), leaves the whole state as it was and
has no effect: the store is not called and nothing is sent. -/
theorem C10_truncated_payload_ignored (cfg : Config) (ms : State) (payload : List byte)
    (client_addr reply_address : NetworkAddress) (session_key : Nat) :
    (RegisterTruncated payload →
        (Receive_SERVER_REGISTER cfg ms payload client_addr reply_address session_key).1 = ms
          ∧ (Receive_SERVER_REGISTER cfg ms payload client_addr reply_address session_key).2 = [])
      ∧ (UnregisterTruncated payload →
        (Receive_SERVER_UNREGISTER ms payload client_addr).1 = ms
          ∧ (Receive_SERVER_UNREGISTER ms payload client_addr).2 = []) := by
  constructor
  · intro h
    rw [Receive_SERVER_REGISTER_rejected cfg ms payload client_addr reply_address session_key
      (fun ha => ha.2.2 h)]
    exact ⟨rfl, rfl⟩
  · intro h
    rw [Receive_SERVER_UNREGISTER_truncated ms payload client_addr h]
    exact ⟨rfl, rfl⟩

/-- Witness of C10: the handshake literal and version 1 followed by one octet
of the port; a version byte 1 followed by one octet of the port. -/
theorem C10_truncated_payload_ignored_witness :
    ((Receive_SERVER_REGISTER exampleConfig examplePending
          [79, 112, 101, 110, 84, 84, 68, 82, 101, 103, 105, 115, 116, 101, 114, 0, 1, 139]
          exampleRegistrant exampleRegistrant 5).1 = examplePending
        ∧ (Receive_SERVER_REGISTER exampleConfig examplePending
          [79, 112, 101, 110, 84, 84, 68, 82, 101, 103, 105, 115, 116, 101, 114, 0, 1, 139]
          exampleRegistrant exampleRegistrant 5).2 = [])
      ∧ ((Receive_SERVER_UNREGISTER examplePending [1, 139] exampleServer).1 = examplePending
        ∧ (Receive_SERVER_UNREGISTER examplePending [1, 139] exampleServer).2 = []) :=
  ⟨(C10_truncated_payload_ignored exampleConfig examplePending
      [79, 112, 101, 110, 84, 84, 68, 82, 101, 103, 105, 115, 116, 101, 114, 0, 1, 139]
      exampleRegistrant exampleRegistrant 5).1 (by decide),
   (C10_truncated_payload_ignored exampleConfig examplePending [1, 139]
      exampleServer exampleServer 5).2 (by decide)⟩

/-! ## The list cache -/

/-- Setting the flags of the indices of a list one after the other touches
the flags of those indices only. -/
theorem foldl_set_flags (l : List Nat) (ms : State) :
    (l.foldl
        (fun m i =>
          { m with update_serverlist_packet := Function.update m.update_serverlist_packet i true })
        ms)
      = { ms with
          update_serverlist_packet := fun j => if j ∈ l then true else ms.update_serverlist_packet j } := by
  induction l generalizing ms with
  | nil => simp
  | cons x xs ih =>
    rw [List.foldl_cons, ih]
    congr 1
    funext j
    by_cases hj : j ∈ xs
    · simp [hj]
    · by_cases hx : j = x
      · subst hx; simp
      · simp [hj, hx, Function.update_noteq hx]

/-- `ServerStateChange` sets the dirty flag of every category below `SLT_END`
and leaves the flags from `SLT_END` on, the cached packets,
`next_serverlist_frame`, `session_key`, the tracked queries and the frame as
they were. -/
theorem ServerStateChange_sets_every_flag (SLT_END : Nat) (ms : State) :
    (∀ i, i < SLT_END → (ServerStateChange SLT_END ms).update_serverlist_packet i = true)
      ∧ (∀ i, SLT_END ≤ i →
          (ServerStateChange SLT_END ms).update_serverlist_packet i
            = ms.update_serverlist_packet i)
      ∧ (ServerStateChange SLT_END ms).serverlist_packet = ms.serverlist_packet
      ∧ (ServerStateChange SLT_END ms).next_serverlist_frame = ms.next_serverlist_frame
      ∧ (ServerStateChange SLT_END ms).session_key = ms.session_key
      ∧ (ServerStateChange SLT_END ms).queried_servers = ms.queried_servers
      ∧ (ServerStateChange SLT_END ms).frame = ms.frame := by
  unfold ServerStateChange
  rw [foldl_set_flags]
  refine ⟨?_, ?_, rfl, rfl, rfl, rfl, rfl⟩
  · intro i hi
    simp [List.mem_range, hi]
  · intro i hi
    have : ¬ i < SLT_END := by omega
    simp [List.mem_range, this]

/-- C8, the code at the failing input: the claim asks that after a matching
SERVER_RESPONSE (server made online) or a version-1 SERVER_UNREGISTER (server
made offline) the dirty flag of every category below `SLT_END` is set. With two
categories and every dirty flag clear, the matching SERVER_RESPONSE of the
example makes the server online and the version-1 SERVER_UNREGISTER makes it
offline, yet after each of them the dirty flag of category 0 is still clear:
the handlers of udp.cpp never call `ServerStateChange`, which would have set
it. -/
theorem C8_handlers_miss_ServerStateChange :
    0 < exampleConfig.SLT_END
      ∧ examplePending.update_serverlist_packet 0 = false
      ∧ (Receive_SERVER_RESPONSE examplePending exampleServer).2
          = [Effect.SendPacket Socket.query OutPacket.PACKET_UDP_MASTER_ACK_REGISTER exampleServer,
             Effect.MakeServerOnline (MSQueriedServer.create exampleServer exampleRegistrant 99 4)]
      ∧ (Receive_SERVER_RESPONSE examplePending exampleServer).1.update_serverlist_packet 0 = false
      ∧ (ServerStateChange exampleConfig.SLT_END
          (Receive_SERVER_RESPONSE examplePending exampleServer).1).update_serverlist_packet 0
          = true
      ∧ (Receive_SERVER_UNREGISTER examplePending [1, 139, 15] exampleRegistrant).2
          = [Effect.MakeServerOffline (QueriedServer.create exampleServer 4)]
      ∧ (Receive_SERVER_UNREGISTER examplePending [1, 139, 15]
            exampleRegistrant).1.update_serverlist_packet 0 = false
      ∧ (ServerStateChange exampleConfig.SLT_END
          (Receive_SERVER_UNREGISTER examplePending [1, 139, 15]
            exampleRegistrant).1).update_serverlist_packet 0
          = true := by
  decide

/-- A call of `GetServerListPacket` hands out the packet it leaves in the
cache, and leaves the category clean. -/
theorem GetServerListPacket_after (online : Nat → List byte) (ms : State) (type : Nat) :
    (GetServerListPacket online ms type).2.1.serverlist_packet type
        = (GetServerListPacket online ms type).1
      ∧ (GetServerListPacket online ms type).2.1.update_serverlist_packet type = false := by
  unfold GetServerListPacket
  split
  · rename_i h
    simp only [Bool.and_eq_true, Bool.not_eq_true', decide_eq_true_eq] at h
    exact ⟨rfl, h.1⟩
  · simp

/-- A call of `GetServerListPacket` that reads the store leaves the category
due `GAME_SERVER_LIST_AGE` frames later (modulo the width of `uint`). -/
theorem GetServerListPacket_rebuilt (online : Nat → List byte) (ms : State) (type : Nat)
    (h : (GetServerListPacket online ms type).2.2 ≠ []) :
    (GetServerListPacket online ms type).2.1.next_serverlist_frame type
      = (ms.frame + GAME_SERVER_LIST_AGE) % UINT_MAX_PLUS_ONE := by
  unfold GetServerListPacket at h ⊢
  split
  · rename_i hc
    rw [if_pos hc] at h
    exact absurd rfl h
  · simp [State.GetFrame]

/-- A call of `GetServerListPacket` on a clean category before its due frame
is a cache hit. -/
theorem GetServerListPacket_hit (online : Nat → List byte) (ms : State) (type : Nat)
    (hclean : ms.update_serverlist_packet type = false)
    (hdue : ms.frame < ms.next_serverlist_frame type) :
    GetServerListPacket online ms type = (ms.serverlist_packet type, ms, []) := by
  unfold GetServerListPacket
  rw [if_pos (by simp [hclean, State.GetFrame, hdue])]

/-- C9, amended: for every category and frames `f1` and `f2`, if
`GetServerListPacket` is called at `f1` and again at `f2` with no state change
in between, and `f2` is below the `next_serverlist_frame` the first call
leaves (which is the case when the first call rebuilt the packet,
`f1 <= f2 < f1 + GAME_SERVER_LIST_AGE`, and `f1 + GAME_SERVER_LIST_AGE` does not
wrap), then the second call returns the packet the first returned, does not
query the store and changes nothing; a CLIENT_GET_LIST handled at `f2` is
answered with that same packet. -/
theorem C9_second_call_is_cache_hit (online1 online2 : Nat → List byte) (ms : State)
    (type f1 f2 : Nat) (client_addr : NetworkAddress)
    (hwin : f2 < (GetServerListPacket online1 (ms.atFrame f1) type).2.1.next_serverlist_frame type
      ∨ ((GetServerListPacket online1 (ms.atFrame f1) type).2.2 ≠ []
          ∧ f1 ≤ f2 ∧ f2 - f1 < GAME_SERVER_LIST_AGE
          ∧ f1 + GAME_SERVER_LIST_AGE < UINT_MAX_PLUS_ONE)) :
    (GetServerListPacket online2
        ((GetServerListPacket online1 (ms.atFrame f1) type).2.1.atFrame f2) type).1
        = (GetServerListPacket online1 (ms.atFrame f1) type).1
      ∧ (GetServerListPacket online2
          ((GetServerListPacket online1 (ms.atFrame f1) type).2.1.atFrame f2) type).2.2 = []
      ∧ (GetServerListPacket online2
          ((GetServerListPacket online1 (ms.atFrame f1) type).2.1.atFrame f2) type).2.1
          = (GetServerListPacket online1 (ms.atFrame f1) type).2.1.atFrame f2
      ∧ (Receive_CLIENT_GET_LIST online2
          ((GetServerListPacket online1 (ms.atFrame f1) type).2.1.atFrame f2) client_addr type).2
          = [Effect.SendPacket Socket.master
              (OutPacket.serverlist (GetServerListPacket online1 (ms.atFrame f1) type).1)
              client_addr] := by
  have hdue : f2 < (GetServerListPacket online1 (ms.atFrame f1) type).2.1.next_serverlist_frame
      type := by
    rcases hwin with h | ⟨hmiss, hle, hage, hwrap⟩
    · exact h
    · rw [GetServerListPacket_rebuilt online1 (ms.atFrame f1) type hmiss]
      have hf : (ms.atFrame f1).frame = f1 := rfl
      rw [hf, Nat.mod_eq_of_lt hwrap]
      omega
  obtain ⟨hpkt, hclean⟩ := GetServerListPacket_after online1 (ms.atFrame f1) type
  have hhit := GetServerListPacket_hit online2
    ((GetServerListPacket online1 (ms.atFrame f1) type).2.1.atFrame f2) type hclean hdue
  unfold Receive_CLIENT_GET_LIST
  rw [hhit]
  refine ⟨hpkt, rfl, rfl, ?_⟩
  simp only [List.nil_append]
  rw [← hpkt]
  rfl

/-- Witness of C9 (amended): the list built at frame 0 is handed out again at
frame 9 without a store query. -/
theorem C9_second_call_is_cache_hit_witness :
    (GetServerListPacket exampleOnline exampleBuilt 0).1 = some [42]
      ∧ (GetServerListPacket exampleOnline
          ((GetServerListPacket exampleOnline ((exampleIdle 0).atFrame 0) 0).2.1.atFrame 9) 0).2.2
          = [] :=
  ⟨by decide,
   (C9_second_call_is_cache_hit exampleOnline exampleOnline (exampleIdle 0) 0 0 9 exampleServer
      (Or.inr (by decide))).2.1⟩

/-- C9 as stated fails: the list of category 0 is built at frame 0 and is due
again at frame 10. A call at frame 9 is a cache hit; with nothing happening in
between, the call at frame 11 (2 frames later, within `GAME_SERVER_LIST_AGE`)
queries the store and rebuilds. The same holds for two CLIENT_GET_LIST
requests at frames 9 and 11. -/
theorem C9_counterexample_second_call_queries_store :
    9 ≤ 11 ∧ 11 - 9 < GAME_SERVER_LIST_AGE
      ∧ (GetServerListPacket exampleOnline (exampleBuilt.atFrame 9) 0).2.2 = []
      ∧ (GetServerListPacket exampleOnline
          ((GetServerListPacket exampleOnline (exampleBuilt.atFrame 9) 0).2.1.atFrame 11) 0).2.2
          = [Effect.ListOnlineServers 0]
      ∧ (Receive_CLIENT_GET_LIST exampleOnline
          ((Receive_CLIENT_GET_LIST exampleOnline (exampleBuilt.atFrame 9)
              exampleRegistrant 0).1.atFrame 11) exampleRegistrant 0).2
          = [Effect.ListOnlineServers 0,
             Effect.SendPacket Socket.master (OutPacket.serverlist (some [42])) exampleRegistrant] := by
  decide

/-! ## The tracked queries along a sequence of packets -/

theorem AddQueriedServer_queried_servers (ms : State) (qs : MSQueriedServer) :
    (AddQueriedServer ms qs).2.queried_servers
      = qs :: ms.queried_servers.filter (fun q => !(q.query_address == qs.query_address)) := rfl

theorem NoDuplicateEndpoints_filter (l : List MSQueriedServer) (p : MSQueriedServer → Bool)
    (h : NoDuplicateEndpoints l) : NoDuplicateEndpoints (l.filter p) :=
  List.Nodup.sublist (List.Sublist.map _ (List.filter_sublist l)) h

theorem NoDuplicateEndpoints_add (l : List MSQueriedServer) (qs : MSQueriedServer)
    (h : NoDuplicateEndpoints l) :
    NoDuplicateEndpoints
      (qs :: l.filter (fun q => !(q.query_address == qs.query_address))) := by
  have hf := NoDuplicateEndpoints_filter l (fun q => !(q.query_address == qs.query_address)) h
  unfold NoDuplicateEndpoints at hf ⊢
  rw [List.map_cons, List.nodup_cons]
  refine ⟨?_, hf⟩
  intro hmem
  rw [List.mem_map] at hmem
  obtain ⟨q, hq, hqa⟩ := hmem
  rw [List.mem_filter] at hq
  have := hq.2
  simp [hqa] at this

/-- The UNREGISTER handler only removes tracked queries. -/
theorem Receive_SERVER_UNREGISTER_queried_servers (ms : State) (payload : List byte)
    (client_addr : NetworkAddress) :
    ∃ p : MSQueriedServer → Bool,
      (Receive_SERVER_UNREGISTER ms payload client_addr).1.queried_servers
        = ms.queried_servers.filter p := by
  unfold Receive_SERVER_UNREGISTER
  simp only []
  split
  · exact ⟨fun _ => true, by simp⟩
  · split
    · exact ⟨fun _ => true, by simp⟩
    · exact ⟨_, rfl⟩

/-- The RESPONSE handler only removes tracked queries. -/
theorem Receive_SERVER_RESPONSE_queried_servers (ms : State) (client_addr : NetworkAddress) :
    ∃ p : MSQueriedServer → Bool,
      (Receive_SERVER_RESPONSE ms client_addr).1.queried_servers = ms.queried_servers.filter p := by
  cases hg : GetQueriedServer ms client_addr with
  | none =>
    rw [Receive_SERVER_RESPONSE_unmatched ms client_addr hg]
    exact ⟨fun _ => true, by simp⟩
  | some qs =>
    rw [Receive_SERVER_RESPONSE_matched ms client_addr qs hg]
    exact ⟨_, rfl⟩

/-- The GET_LIST handler does not touch the tracked queries. -/
theorem Receive_CLIENT_GET_LIST_queried_servers (online : Nat → List byte) (ms : State)
    (client_addr : NetworkAddress) (type : Nat) :
    (Receive_CLIENT_GET_LIST online ms client_addr type).1.queried_servers
      = ms.queried_servers := by
  unfold Receive_CLIENT_GET_LIST GetServerListPacket
  split <;> rfl

/-- The effects of the UNREGISTER handler are at most one `MakeServerOffline`. -/
theorem Receive_SERVER_UNREGISTER_effects (ms : State) (payload : List byte)
    (client_addr : NetworkAddress) (e : Effect)
    (he : e ∈ (Receive_SERVER_UNREGISTER ms payload client_addr).2) :
    ∃ qs, e = Effect.MakeServerOffline qs := by
  unfold Receive_SERVER_UNREGISTER at he
  simp only [] at he
  split at he
  · simp at he
  · split at he
    · simp at he
    · exact ⟨_, by simpa using he⟩

/-- Every handler keeps the query endpoints of the tracked queries distinct. -/
theorem handle_NoDuplicateEndpoints (cfg : Config) (ms : State) (st : Step)
    (h : NoDuplicateEndpoints ms.queried_servers) :
    NoDuplicateEndpoints (handle cfg ms st).1.queried_servers := by
  have hms : (ms.atFrame st.frame).queried_servers = ms.queried_servers := rfl
  unfold handle
  split
  · rename_i payload client_addr reply_address session_key _
    by_cases ha : RegisterAccepted cfg payload
    · rw [Receive_SERVER_REGISTER_accepted cfg _ payload client_addr reply_address session_key ha]
      simp only [AddQueriedServer_queried_servers, hms]
      exact NoDuplicateEndpoints_add _ _ h
    · rw [Receive_SERVER_REGISTER_rejected cfg _ payload client_addr reply_address session_key ha]
      exact h
  · rename_i payload client_addr _
    obtain ⟨p, hp⟩ := Receive_SERVER_UNREGISTER_queried_servers (ms.atFrame st.frame) payload
      client_addr
    rw [hp]
    exact NoDuplicateEndpoints_filter _ p h
  · rename_i client_addr type _
    rw [Receive_CLIENT_GET_LIST_queried_servers]
    exact h
  · rename_i client_addr _
    obtain ⟨p, hp⟩ := Receive_SERVER_RESPONSE_queried_servers (ms.atFrame st.frame) client_addr
    rw [hp]
    exact NoDuplicateEndpoints_filter _ p h

/-- The invariant holds along every sequence of handled packets. -/
theorem run_NoDuplicateEndpoints (cfg : Config) (steps : List Step) (ms : State)
    (h : NoDuplicateEndpoints ms.queried_servers) :
    NoDuplicateEndpoints (run cfg ms steps).queried_servers := by
  induction steps generalizing ms with
  | nil => exact h
  | cons st rest ih => exact ih _ (handle_NoDuplicateEndpoints cfg ms st h)

/-- A query tracked after a packet was tracked before it, or the packet is an
accepted REGISTER and the query is the one its handler builds. -/
theorem handle_tracked (cfg : Config) (ms : State) (st : Step) (q : MSQueriedServer)
    (hq : q ∈ (handle cfg ms st).1.queried_servers) :
    q ∈ ms.queried_servers ∨ CreatedBy cfg [st] q := by
  have hms : (ms.atFrame st.frame).queried_servers = ms.queried_servers := rfl
  obtain ⟨frame, online, input⟩ := st
  unfold handle at hq
  cases input with
  | SERVER_REGISTER payload client_addr reply_address session_key =>
    simp only [] at hq
    by_cases ha : RegisterAccepted cfg payload
    · rw [Receive_SERVER_REGISTER_accepted cfg _ payload client_addr reply_address session_key ha,
        AddQueriedServer_queried_servers, List.mem_cons] at hq
      rcases hq with hq | hq
      · right
        exact ⟨[], [], frame, online, payload, client_addr, reply_address, session_key, rfl, ha, hq⟩
      · left
        exact (List.mem_filter.mp hq).1
    · rw [Receive_SERVER_REGISTER_rejected cfg _ payload client_addr reply_address session_key ha]
        at hq
      exact Or.inl hq
  | SERVER_UNREGISTER payload client_addr =>
    simp only [] at hq
    obtain ⟨p, hp⟩ := Receive_SERVER_UNREGISTER_queried_servers (ms.atFrame frame) payload
      client_addr
    rw [hp] at hq
    exact Or.inl (List.mem_filter.mp hq).1
  | CLIENT_GET_LIST client_addr type =>
    simp only [] at hq
    rw [Receive_CLIENT_GET_LIST_queried_servers] at hq
    exact Or.inl hq
  | SERVER_RESPONSE client_addr =>
    simp only [] at hq
    obtain ⟨p, hp⟩ := Receive_SERVER_RESPONSE_queried_servers (ms.atFrame frame) client_addr
    rw [hp] at hq
    exact Or.inl (List.mem_filter.mp hq).1

theorem CreatedBy_append_right (cfg : Config) (history more : List Step) (q : MSQueriedServer)
    (h : CreatedBy cfg history q) : CreatedBy cfg (history ++ more) q := by
  obtain ⟨before, after, frame, online, payload, ca, ra, sk, hh, ha, hq⟩ := h
  exact ⟨before, after ++ more, frame, online, payload, ca, ra, sk, by simp [hh], ha, hq⟩

theorem CreatedBy_append_left (cfg : Config) (history more : List Step) (q : MSQueriedServer)
    (h : CreatedBy cfg more q) : CreatedBy cfg (history ++ more) q := by
  obtain ⟨before, after, frame, online, payload, ca, ra, sk, hh, ha, hq⟩ := h
  exact ⟨history ++ before, after, frame, online, payload, ca, ra, sk, by simp [hh], ha, hq⟩

/-- Every query tracked after a sequence of packets was tracked at its start
or was created by an accepted REGISTER of the sequence. -/
theorem run_tracked (cfg : Config) (todo : List Step) (done : List Step) (ms : State)
    (hms : ∀ q ∈ ms.queried_servers, CreatedBy cfg done q) :
    ∀ q ∈ (run cfg ms todo).queried_servers, CreatedBy cfg (done ++ todo) q := by
  induction todo generalizing done ms with
  | nil => simpa using hms
  | cons st rest ih =>
    intro q hq
    have key := ih (done ++ [st]) (handle cfg ms st).1 (by
      intro q2 hq2
      rcases handle_tracked cfg ms st q2 hq2 with h | h
      · exact CreatedBy_append_right cfg done [st] q2 (hms q2 h)
      · exact CreatedBy_append_left cfg done [st] q2 h) q hq
    simpa using key

/-- C7: for every accepted SERVER_REGISTER (correct welcome string, version 1,
complete payload) from sender host H with payload listen port P, handled at
frame f: exactly one packet is sent, a probe to (H, P); afterwards exactly one
tracked query has query endpoint (H, P), it has frame f and attempts 1; the
tracked queries of other endpoints are the ones tracked before, so a query
already tracked for (H, P) is replaced; distinct query endpoints stay
distinct. Hence, from an empty tracked-query set, no sequence of handled
packets leads to two tracked queries with the same query endpoint. -/
theorem C7_register_tracks_one_query :
    (∀ (cfg : Config) (ms : State) (payload : List byte)
        (client_addr reply_address : NetworkAddress) (session_key : Nat),
        RegisterAccepted cfg payload →
          (Receive_SERVER_REGISTER cfg ms payload client_addr reply_address session_key).2
              = [Effect.SendPacket Socket.query OutPacket.PACKET_UDP_CLIENT_FIND_SERVER
                  { host := client_addr.host, port := registerPort cfg payload }]
            ∧ (∃ qs : MSQueriedServer,
                (Receive_SERVER_REGISTER cfg ms payload client_addr reply_address
                    session_key).1.queried_servers.filter
                  (fun q => q.query_address
                    == { host := client_addr.host, port := registerPort cfg payload }) = [qs]
                ∧ qs.query_address = { host := client_addr.host, port := registerPort cfg payload }
                ∧ qs.frame = ms.frame ∧ qs.attempts = 1)
            ∧ (Receive_SERVER_REGISTER cfg ms payload client_addr reply_address
                  session_key).1.queried_servers.filter
                (fun q => !(q.query_address
                  == { host := client_addr.host, port := registerPort cfg payload }))
                = ms.queried_servers.filter
                    (fun q => !(q.query_address
                      == { host := client_addr.host, port := registerPort cfg payload }))
            ∧ (NoDuplicateEndpoints ms.queried_servers →
                NoDuplicateEndpoints
                  (Receive_SERVER_REGISTER cfg ms payload client_addr reply_address
                    session_key).1.queried_servers))
      ∧ (∀ (cfg : Config) (init : State) (steps : List Step),
          init.queried_servers = [] →
            NoDuplicateEndpoints (run cfg init steps).queried_servers) := by
  constructor
  · intro cfg ms payload client_addr reply_address session_key ha
    rw [Receive_SERVER_REGISTER_accepted cfg ms payload client_addr reply_address session_key ha,
      AddQueriedServer_queried_servers]
    refine ⟨rfl, ⟨MSQueriedServer.create
      { host := client_addr.host, port := registerPort cfg payload } reply_address session_key
      ms.frame, ?_, rfl, rfl, rfl⟩, ?_, ?_⟩
    · simp only [MSQueriedServer.create, QueriedServer.create, NetworkAddress.SetPort]
      rw [List.filter_cons, if_pos (by simp), List.filter_filter]
      simp
    · simp only [MSQueriedServer.create, QueriedServer.create, NetworkAddress.SetPort]
      rw [List.filter_cons, if_neg (by simp), List.filter_filter]
      simp
    · intro hnd
      exact NoDuplicateEndpoints_add _ _ hnd
  · intro cfg init steps hinit
    apply run_NoDuplicateEndpoints
    rw [hinit]
    exact List.nodup_nil

/-- Witness of C7: the registrant of the example registers a second time, at
frame 6, while its first query (of frame 4) is still tracked: one probe goes
out and the only tracked query is the new one. -/
theorem C7_register_tracks_one_query_witness :
    (Receive_SERVER_REGISTER exampleConfig (examplePending.atFrame 6) exampleRegisterPayload
        exampleRegistrant exampleRegistrant 100).2
        = [Effect.SendPacket Socket.query OutPacket.PACKET_UDP_CLIENT_FIND_SERVER exampleServer]
      ∧ (Receive_SERVER_REGISTER exampleConfig (examplePending.atFrame 6) exampleRegisterPayload
          exampleRegistrant exampleRegistrant 100).1.queried_servers
        = [MSQueriedServer.create exampleServer exampleRegistrant 100 6] :=
  ⟨(C7_register_tracks_one_query.1 exampleConfig (examplePending.atFrame 6)
      exampleRegisterPayload exampleRegistrant exampleRegistrant 100 (by decide)).1,
   by decide⟩

/-- C1: over every sequence of handled packets that starts with nothing
tracked, a call of `MakeServerOnline` for a tracked query `qs` happens only
while handling a SERVER_RESPONSE whose sender endpoint is the query endpoint of
`qs`, with `qs` tracked for that endpoint at that moment, and only after an
accepted SERVER_REGISTER (correct welcome string, version 1, complete payload)
earlier in the sequence whose handler created `qs` for that endpoint. -/
theorem C1_no_trust_without_probe (cfg : Config) (init : State)
    (hinit : init.queried_servers = []) (history : List Step) (st : Step)
    (qs : MSQueriedServer)
    (hcall : Effect.MakeServerOnline qs ∈ (handle cfg (run cfg init history) st).2) :
    st.input = UDPInput.SERVER_RESPONSE qs.query_address
      ∧ GetQueriedServer (run cfg init history) qs.query_address = some qs
      ∧ qs ∈ (run cfg init history).queried_servers
      ∧ CreatedBy cfg history qs := by
  have hresp : st.input = UDPInput.SERVER_RESPONSE qs.query_address
      ∧ GetQueriedServer (run cfg init history) qs.query_address = some qs := by
    obtain ⟨frame, online, input⟩ := st
    unfold handle at hcall
    cases input with
    | SERVER_REGISTER payload client_addr reply_address session_key =>
      simp only [] at hcall
      have := Receive_SERVER_REGISTER_effects cfg _ payload client_addr reply_address
        session_key _ hcall
      exact Effect.noConfusion this
    | SERVER_UNREGISTER payload client_addr =>
      simp only [] at hcall
      obtain ⟨q, hq⟩ := Receive_SERVER_UNREGISTER_effects _ payload client_addr _ hcall
      exact Effect.noConfusion hq
    | CLIENT_GET_LIST client_addr type =>
      simp only [] at hcall
      rcases Receive_CLIENT_GET_LIST_effects online _ client_addr type _ hcall with h | ⟨pkt, h⟩
      · exact Effect.noConfusion h
      · exact Effect.noConfusion h
    | SERVER_RESPONSE client_addr =>
      simp only [] at hcall
      obtain ⟨q, hg, h | h⟩ := Receive_SERVER_RESPONSE_effects _ client_addr _ hcall
      · exact Effect.noConfusion h
      · have hq : qs = q := by injection h
        subst hq
        have hg2 : GetQueriedServer (run cfg init history) client_addr = some qs := hg
        have ha := (GetQueriedServer_address _ client_addr qs hg2).1
        subst ha
        exact ⟨rfl, hg2⟩
  have hmem := (GetQueriedServer_address _ _ qs hresp.2).2
  have hcreated := run_tracked cfg history [] init (by rw [hinit]; simp) qs hmem
  exact ⟨hresp.1, hresp.2, hmem, by simpa using hcreated⟩

/-- Witness of C1: after the REGISTER of the example, the SERVER_RESPONSE of
the probed endpoint at frame 5 makes the server online. -/
theorem C1_no_trust_without_probe_witness :
    (exampleIdle 0).queried_servers = []
      ∧ Effect.MakeServerOnline (MSQueriedServer.create exampleServer exampleRegistrant 99 4)
          ∈ (handle exampleConfig (run exampleConfig (exampleIdle 0) exampleHistory)
              { frame := 5, online := exampleOnline,
                input := UDPInput.SERVER_RESPONSE exampleServer }).2
      ∧ CreatedBy exampleConfig exampleHistory
          (MSQueriedServer.create exampleServer exampleRegistrant 99 4) :=
  ⟨rfl, by decide,
   (C1_no_trust_without_probe exampleConfig (exampleIdle 0) rfl exampleHistory
      { frame := 5, online := exampleOnline, input := UDPInput.SERVER_RESPONSE exampleServer }
      (MSQueriedServer.create exampleServer exampleRegistrant 99 4) (by decide)).2.2.2⟩

end MasterServer
